import Mathlib

/-!
Verification development for the flytepropeller dynamic-node / catalog /
secret-injection subsystems.  Definitions are shallow embeddings of the Go
source in `pkg/controller/catalog/datacatalog/datacatalog.go` and
`pkg/webhook/aws_secret_manager.go`; the dynamic node handler itself is not
part of the available sources (only its tests are), so that component is
modelled from the specification, as marked on each such definition.
-/

set_option linter.unusedVariables false

namespace FlytePropeller

/-! ## Common: errors and gRPC status codes -/

/-- gRPC status codes that are relevant to the embedded code paths. -/
inductive StatusCode
  | ok
  | alreadyExists
  | notFound
  | deadlineExceeded
  | unavailable
  | canceled
  | unknown
  deriving DecidableEq, Repr

/-- A Go error together with the gRPC status code that `status.Code(err)`
would report for it.  An error created with `fmt.Errorf` carries code
`unknown`, matching `status.Code` on a non-status error. -/
structure GoError where
  code : StatusCode
  msg : String
  deriving DecidableEq, Repr

/-! ## Core IDL data model (flyteidl `core` package, as used by the sources) -/

inductive SimpleType
  | integer
  | str
  | boolean
  | float
  deriving DecidableEq, Repr

/-- Literal type; only the `Simple` arm is exercised by the sources. -/
structure LiteralType where
  simple : SimpleType
  deriving DecidableEq, Repr

/-- A literal value stored in a literal map. -/
inductive Literal
  | int (n : Int)
  | str (s : String)
  | boolean (b : Bool)
  deriving DecidableEq, Repr

/-- `core.LiteralMap`: variable name to literal value.  A Go map is embedded
as an association list. -/
def LiteralMap := List (String × Literal)
  deriving DecidableEq, Repr

/-- `core.Variable`: a named slot with a literal type. -/
structure Variable where
  type : LiteralType
  deriving DecidableEq, Repr

/-- `core.VariableMap`.  The source field is called `Variables`; that name
is a reserved command token in Lean, so the field is called `vars` here. -/
structure VariableMap where
  vars : List (String × Variable)
  deriving DecidableEq, Repr

/-- `core.TypedInterface`. -/
structure TypedInterface where
  inputs : Option VariableMap
  outputs : Option VariableMap
  deriving DecidableEq, Repr

/-- `core.Identifier`. -/
structure Identifier where
  resourceType : String
  project : String
  domain : String
  name : String
  version : String
  deriving DecidableEq, Repr

/-- `core.TaskMetadata`; only `Discoverable` is read by the embedded code. -/
structure TaskMetadata where
  discoverable : Bool
  deriving DecidableEq, Repr

/-- `core.TaskTemplate`.  Pointer-valued fields are embedded as `Option`. -/
structure TaskTemplate where
  id : Option Identifier
  type : String
  metadata : Option TaskMetadata
  interface : Option TypedInterface
  deriving DecidableEq, Repr

/-- `core.NodeExecutionIdentifier`, as used by `Put` for metadata. -/
structure NodeExecutionIdentifier where
  nodeId : String
  deriving DecidableEq, Repr

/-- `core.TaskExecutionIdentifier`. -/
structure TaskExecutionIdentifier where
  taskId : Identifier
  nodeExecutionId : NodeExecutionIdentifier
  deriving DecidableEq, Repr

/-! ## Webhook data model (k8s corev1 pod, flyteidl secret)

Embedded from `pkg/webhook/aws_secret_manager.go` and the parts of the
kubernetes API it touches. -/

/-- `corev1.EnvVar`. -/
structure EnvVar where
  name : String
  value : String
  deriving DecidableEq, Repr

/-- `corev1.VolumeMount`: the fields the webhook sets. -/
structure VolumeMount where
  name : String
  mountPath : String
  readOnly : Bool
  deriving DecidableEq, Repr

/-- `corev1.Volume` restricted to what the secret webhook produces: a named
volume sourcing a single key of a kubernetes secret object. -/
structure Volume where
  name : String
  secretGroup : String
  secretKey : String
  deriving DecidableEq, Repr

/-- `corev1.Container`: the fields the webhook mutates. -/
structure Container where
  name : String
  volumeMounts : List VolumeMount
  env : List EnvVar
  deriving DecidableEq, Repr

/-- `corev1.PodSpec`: the fields the webhook mutates. -/
structure PodSpec where
  volumes : List Volume
  initContainers : List Container
  containers : List Container
  deriving DecidableEq, Repr

/-- `corev1.Pod`. -/
structure Pod where
  spec : PodSpec
  deriving DecidableEq, Repr

/-- `core.Secret.MountType`.  Protobuf enums are open, so an out-of-range
wire value is representable. -/
inductive MountRequirement
  | any
  | envVar
  | file
  | unrecognized (n : Int)
  deriving DecidableEq, Repr

/-- `core.Secret`. -/
structure Secret where
  group : String
  key : String
  version : String
  mountRequirement : MountRequirement
  deriving DecidableEq, Repr

/-! ## AWS secret manager injector (from `pkg/webhook/aws_secret_manager.go`) -/

def AWSSecretArnEnvVar : String := "secrets.k8s.aws/secret-arn"

def AWSSecretMountPathEnvVar : String := "secrets.k8s.aws/mount-path"

def AWSSecretFileNameEnvVar : String := "secrets.k8s.aws/secret-filename"

/-- Source constant `AWSSecretMountPathPrefix`. -/
def AWSSecretMountPathBase : String := "/etc/flyte/secrets/"

/-- Modelled from the spec: the webhook constants package (not in the
available sources) defines a default-directory environment variable name
used by the consuming runtime to locate secret files. -/
def K8sPathDefaultDirEnvVar : String := "FLYTE_SECRETS_DEFAULT_DIR"

/-- Modelled from the spec: the webhook constants package (not in the
available sources) defines a file-prefix environment variable name; the
injector sets it to the empty string. -/
def K8sPathFilePrefixEnvVar : String := "FLYTE_SECRETS_FILE_PREFIX"

/-- Modelled from the spec: `filepath.Join(K8sSecretPathPrefix...)`, the
default directory where secrets are mounted. -/
def K8sSecretPathDefaultDir : String := "/etc/flyte/secrets"

/-- `formatAWSSecretArn`: `strings.TrimRight(secret.Group, ":") + ":" +
strings.TrimLeft(secret.Key, ":")`. -/
def formatAWSSecretArn (secret : Secret) : String :=
  (secret.group.dropRightWhile (· = ':')) ++ ":" ++ (secret.key.dropWhile (· = ':'))

/-- `formatAWSSecretMount`: `AWSSecretMountPathPrefix + secret.Group`. -/
def formatAWSSecretMount (secret : Secret) : String :=
  AWSSecretMountPathBase ++ secret.group

/-- Modelled from the spec: `CreateVolumeForSecret` from the webhook utils
(not in the available sources) adds one volume mapping the secret object
(`secret.Group`) and key (`secret.Key`). -/
def CreateVolumeForSecret (secret : Secret) : Volume :=
  { name := secret.group
    secretGroup := secret.group
    secretKey := secret.key }

/-- Modelled from the spec: `CreateVolumeMountForSecret` from the webhook
utils (not in the available sources) mounts the named volume at the
canonical path `/etc/flyte/secrets/<group>`. -/
def CreateVolumeMountForSecret (volumeName : String) (secret : Secret) : VolumeMount :=
  { name := volumeName
    mountPath := formatAWSSecretMount secret
    readOnly := true }

/-- Modelled from the spec: `UpdateVolumeMounts` from the webhook utils (not
in the available sources) mounts the given volume mount into every container
of the list. -/
def UpdateVolumeMounts (containers : List Container) (mount : VolumeMount) : List Container :=
  containers.map fun c => { c with volumeMounts := c.volumeMounts ++ [mount] }

/-- Modelled from the spec: `UpdateEnvVars` from the webhook utils (not in
the available sources) sets the given environment variable on every
container of the list. -/
def UpdateEnvVars (containers : List Container) (envVar : EnvVar) : List Container :=
  containers.map fun c => { c with env := c.env ++ [envVar] }

/-- Result triple of `Inject`: `(newP *corev1.Pod, injected bool, err error)`. -/
structure InjectResult where
  newP : Option Pod
  injected : Bool
  err : Option GoError
  deriving DecidableEq, Repr

/-- `AWSSecretManagerInjector.Inject`, embedded statement by statement from
the source.  Note that the source constructs the list `envVars` of the three
secret-specific environment variables but never appends it to any container;
the embedding preserves that. -/
def Inject (secret : Secret) (p : Pod) : InjectResult :=
  if secret.group.length = 0 ∨ secret.key.length = 0 then
    { newP := none
      injected := false
      err := some { code := .unknown
                    msg := "k8s Secrets Webhook require both key and group to be set" } }
  else
    match secret.mountRequirement with
    | .any | .file =>
      let envVars : List EnvVar :=
        [ { name := AWSSecretArnEnvVar, value := formatAWSSecretArn secret },
          { name := AWSSecretMountPathEnvVar, value := formatAWSSecretMount secret },
          { name := AWSSecretFileNameEnvVar, value := secret.key } ]
      let volume := CreateVolumeForSecret secret
      let p1 : Pod := { p with spec := { p.spec with volumes := p.spec.volumes ++ [volume] } }
      let mount := CreateVolumeMountForSecret volume.name secret
      let p2 : Pod := { p1 with spec :=
        { p1.spec with initContainers := UpdateVolumeMounts p1.spec.initContainers mount } }
      let p3 : Pod := { p2 with spec :=
        { p2.spec with containers := UpdateVolumeMounts p2.spec.containers mount } }
      let defaultDirEnvVar : EnvVar :=
        { name := K8sPathDefaultDirEnvVar, value := K8sSecretPathDefaultDir }
      let p4 : Pod := { p3 with spec :=
        { p3.spec with initContainers := UpdateEnvVars p3.spec.initContainers defaultDirEnvVar } }
      let p5 : Pod := { p4 with spec :=
        { p4.spec with containers := UpdateEnvVars p4.spec.containers defaultDirEnvVar } }
      let prefixEnvVar : EnvVar := { name := K8sPathFilePrefixEnvVar, value := "" }
      let p6 : Pod := { p5 with spec :=
        { p5.spec with initContainers := UpdateEnvVars p5.spec.initContainers prefixEnvVar } }
      let p7 : Pod := { p6 with spec :=
        { p6.spec with containers := UpdateEnvVars p6.spec.containers prefixEnvVar } }
      { newP := some p7, injected := true, err := none }
    | _ =>
      { newP := some p
        injected := false
        err := some { code := .unknown, msg := "unrecognized mount requirement" } }

/-! ## Data catalog entities (datacatalog protos, as used by the source) -/

/-- `datacatalog.DatasetID`: key `(project, domain, name, version)`. -/
structure DatasetID where
  project : String
  domain : String
  name : String
  version : String
  deriving DecidableEq, Repr

/-- `datacatalog.Metadata`. -/
structure CatalogMetadata where
  keyMap : List (String × String)
  deriving DecidableEq, Repr

/-- `datacatalog.Dataset`. -/
structure Dataset where
  id : DatasetID
  metadata : CatalogMetadata
  deriving DecidableEq, Repr

/-- `datacatalog.ArtifactData`: one `(output_name, literal_value)` pair. -/
structure ArtifactData where
  name : String
  value : Literal
  deriving DecidableEq, Repr

/-- `datacatalog.Artifact`. -/
structure Artifact where
  id : String
  dataset : DatasetID
  data : List ArtifactData
  metadata : CatalogMetadata
  deriving DecidableEq, Repr

/-- `datacatalog.Tag`. -/
structure Tag where
  name : String
  dataset : DatasetID
  artifactId : String
  deriving DecidableEq, Repr

/-! ## Catalog client embedding (from
`pkg/controller/catalog/datacatalog/datacatalog.go`)

The remote gRPC service and the blob store are embedded as structures of
response functions; every call the client issues is additionally recorded in
a trace, which makes the effects of the Go code (which RPCs were sent, which
paths were read) explicit and observable. -/

def taskVersionKey : String := "task-version"

def taskExecKey : String := "execution-name"

/-- Responses of the remote `datacatalog.DataCatalogClient` for each RPC the
embedded client issues.  Each RPC is called at most once per `Get`/`Put`, so
a deterministic response function per call faithfully captures one run. -/
structure DataCatalogService where
  getDatasetResp : DatasetID → Except GoError Dataset
  getArtifactResp : DatasetID → String → Except GoError Artifact
  createDatasetResp : Dataset → Except GoError Unit
  createArtifactResp : Artifact → Except GoError Unit
  addTagResp : Tag → Except GoError Unit

/-- Responses of the `storage.ProtobufStore` for protobuf reads at a path. -/
structure ProtobufStore where
  readResp : String → Except GoError LiteralMap

/-- The `CatalogClient` struct: remote client plus blob store. -/
structure CatalogClient where
  client : DataCatalogService
  store : ProtobufStore

/-- One observable effect of the catalog client: a store read or an RPC. -/
inductive Event
  | readProto (path : String)
  | rpcGetDataset (id : DatasetID)
  | rpcGetArtifact (dataset : DatasetID) (tagName : String)
  | rpcCreateDataset (d : Dataset)
  | rpcCreateArtifact (a : Artifact)
  | rpcAddTag (t : Tag)
  deriving DecidableEq, Repr

abbrev Trace := List Event

/-- `validateTask`: interface, id and metadata must all be non-nil. -/
def validateTask (task : TaskTemplate) : Option GoError :=
  if task.interface.isNone then
    some { code := .unknown, msg := "Task interface cannot be nil" }
  else if task.id.isNone then
    some { code := .unknown, msg := "Task ID cannot be nil" }
  else if task.metadata.isNone then
    some { code := .unknown, msg := "Task metadata cannot be nil" }
  else
    none

/-- `task.Interface.Inputs != nil && len(task.Interface.Inputs.Variables) != 0`. -/
def taskHasDeclaredInputs (task : TaskTemplate) : Bool :=
  match task.interface with
  | none => false
  | some i =>
    match i.inputs with
    | none => false
    | some vm => !vm.vars.isEmpty

/-- `task.Interface.Outputs != nil && len(task.Interface.Outputs.Variables) != 0`. -/
def taskHasDeclaredOutputs (task : TaskTemplate) : Bool :=
  match task.interface with
  | none => false
  | some i =>
    match i.outputs with
    | none => false
    | some vm => !vm.vars.isEmpty

/-- Modelled from the spec: `transformer.GenerateDatasetIDForTask` (the
transformer package is not in the available sources) derives the dataset key
`(project, domain, task_name, task_version)` deterministically from the task
template's identifier. -/
def GenerateDatasetIDForTask (task : TaskTemplate) : Except GoError DatasetID :=
  match task.id with
  | none => .error { code := .unknown, msg := "task id is nil" }
  | some i => .ok { project := i.project, domain := i.domain, name := i.name, version := i.version }

/-- Canonical serialization of one literal, used by the modelled tag hash. -/
def serializeLiteral : Literal → String
  | .int n => "i" ++ toString n
  | .str s => "s" ++ s
  | .boolean b => "b" ++ toString b

/-- Canonical serialization of a literal map, used by the modelled tag hash. -/
def serializeLiteralMap (m : LiteralMap) : String :=
  String.join (m.map fun p => p.1 ++ "=" ++ serializeLiteral p.2 ++ ";")

/-- Modelled from the spec: `transformer.GenerateArtifactTagName` (not in
the available sources) produces the tag name as a deterministic
collision-resistant hash of the canonical serialization of the input literal
map; the model uses the canonical serialization itself as the hash. -/
def GenerateArtifactTagName (inputs : LiteralMap) : Except GoError String :=
  .ok ("flyte_cached-" ++ serializeLiteralMap inputs)

/-- Modelled from the spec: `transformer.GenerateTaskOutputsFromArtifact`
(not in the available sources) reconstructs the task's declared outputs from
the artifact's data list, preserving variable names; a declared output
missing from the artifact data is an error. -/
def GenerateTaskOutputsFromArtifact (task : TaskTemplate) (artifact : Artifact) :
    Except GoError LiteralMap :=
  let declared : List String :=
    match task.interface with
    | none => []
    | some i =>
      match i.outputs with
      | none => []
      | some vm => vm.vars.map (·.1)
  declared.foldr
    (fun name acc =>
      match acc with
      | .error e => .error e
      | .ok rest =>
        match (artifact.data.find? (fun d => d.name = name)) with
        | none => .error { code := .unknown, msg := "artifact data missing output " ++ name }
        | some d => .ok ((name, d.value) :: rest))
    (.ok [])

/-- `CatalogClient.getDataset`: derive the dataset id, then `GetDataset`. -/
def CatalogClient.getDataset (m : CatalogClient) (task : TaskTemplate) :
    Trace × Except GoError Dataset :=
  match GenerateDatasetIDForTask task with
  | .error e => ([], .error e)
  | .ok datasetID => ([Event.rpcGetDataset datasetID], m.client.getDatasetResp datasetID)

/-- `CatalogClient.getArtifactByTag`: `GetArtifact` with a tag-name query. -/
def CatalogClient.getArtifactByTag (m : CatalogClient) (tagName : String) (dataset : Dataset) :
    Trace × Except GoError Artifact :=
  ([Event.rpcGetArtifact dataset.id tagName], m.client.getArtifactResp dataset.id tagName)

/-- `CatalogClient.Get`, embedded step by step from the source: validate the
task, read inputs when declared, look up the dataset, compute the input-hash
tag, look up the artifact by tag, and reconstruct the declared outputs from
the artifact data.  Every error, including a not-found from the service, is
returned to the caller unchanged. -/
def CatalogClient.Get (m : CatalogClient) (task : TaskTemplate) (inputPath : String) :
    Trace × Except GoError LiteralMap :=
  match validateTask task with
  | some e => ([], .error e)
  | none =>
    let (t1, rIn) :=
      if taskHasDeclaredInputs task then
        ([Event.readProto inputPath], m.store.readResp inputPath)
      else
        ([], Except.ok ([] : LiteralMap))
    match rIn with
    | .error e => (t1, .error e)
    | .ok inputs =>
      let (t2, rDs) := m.getDataset task
      match rDs with
      | .error e => (t1 ++ t2, .error e)
      | .ok dataset =>
        match GenerateArtifactTagName inputs with
        | .error e => (t1 ++ t2, .error e)
        | .ok tag =>
          let (t3, rArt) := m.getArtifactByTag tag dataset
          match rArt with
          | .error e => (t1 ++ t2 ++ t3, .error e)
          | .ok artifact =>
            match GenerateTaskOutputsFromArtifact task artifact with
            | .error e => (t1 ++ t2 ++ t3, .error e)
            | .ok outputs => (t1 ++ t2 ++ t3, .ok outputs)

/-- The metadata `Put` attaches to both the dataset and the artifact:
`{task-version, execution-name}`. -/
def putCatalogMetadata (task : TaskTemplate) (execID : TaskExecutionIdentifier) :
    CatalogMetadata :=
  { keyMap :=
      [ (taskVersionKey, (match task.id with | some i => i.version | Option.none => "")),
        (taskExecKey, execID.nodeExecutionId.nodeId) ] }

/-- `CatalogClient.Put`, embedded step by step from the source: validate the
task, read inputs and outputs when declared, create the dataset (treating
`ALREADY_EXISTS` as success), create a fresh artifact holding the output
literals, and tag it with the input hash.  The fresh artifact id (a UUID in
the source) is passed in explicitly.  Note the AddTag error path: an
`ALREADY_EXISTS` status is logged as idempotent but the error is returned
anyway, exactly as in the source. -/
def CatalogClient.Put (m : CatalogClient) (task : TaskTemplate)
    (execID : TaskExecutionIdentifier) (inputPath outputPath : String)
    (freshArtifactID : String) : Trace × Except GoError Unit :=
  match validateTask task with
  | some e => ([], .error e)
  | none =>
    let (t1, rIn) :=
      if taskHasDeclaredInputs task then
        ([Event.readProto inputPath], m.store.readResp inputPath)
      else
        ([], Except.ok ([] : LiteralMap))
    match rIn with
    | .error e => (t1, .error e)
    | .ok inputs =>
      let (t2, rOut) :=
        if taskHasDeclaredOutputs task then
          ([Event.readProto outputPath], m.store.readResp outputPath)
        else
          ([], Except.ok ([] : LiteralMap))
      match rOut with
      | .error e => (t1 ++ t2, .error e)
      | .ok outputs =>
        match GenerateDatasetIDForTask task with
        | .error e => (t1 ++ t2, .error e)
        | .ok datasetID =>
          let metadata := putCatalogMetadata task execID
          let newDataset : Dataset := { id := datasetID, metadata := metadata }
          let t3 := [Event.rpcCreateDataset newDataset]
          let rCreate := m.client.createDatasetResp newDataset
          let dsOk : Except GoError Unit :=
            match rCreate with
            | .error e => if e.code = .alreadyExists then .ok () else .error e
            | .ok _ => .ok ()
          match dsOk with
          | .error e => (t1 ++ t2 ++ t3, .error e)
          | .ok _ =>
            let artifactDataList : List ArtifactData :=
              outputs.map fun p => { name := p.1, value := p.2 }
            let cachedArtifact : Artifact :=
              { id := freshArtifactID
                dataset := datasetID
                data := artifactDataList
                metadata := metadata }
            let t4 := [Event.rpcCreateArtifact cachedArtifact]
            match m.client.createArtifactResp cachedArtifact with
            | .error e => (t1 ++ t2 ++ t3 ++ t4, .error e)
            | .ok _ =>
              match GenerateArtifactTagName inputs with
              | .error e => (t1 ++ t2 ++ t3 ++ t4, .error e)
              | .ok tagName =>
                let tag : Tag :=
                  { name := tagName, dataset := datasetID, artifactId := cachedArtifact.id }
                let t5 := [Event.rpcAddTag tag]
                match m.client.addTagResp tag with
                | .error e => (t1 ++ t2 ++ t3 ++ t4 ++ t5, .error e)
                | .ok _ => (t1 ++ t2 ++ t3 ++ t4 ++ t5, .ok ())

/-! ## Dynamic node handler (modelled from the spec)

The dynamic node handler implementation (`pkg/controller/nodes/dynamic`) is
not among the available sources; only its tests are.  The definitions below
are therefore modelled from the specification (state machine of section 4.1,
builder of section 4.2, stitcher of section 4.3), as marked on each one. -/

/-- Modelled from the spec: the persisted dynamic node phase
`{None, ParentExecuting, ParentFinalizing, Executing, Failing}`. -/
inductive DynamicNodePhase
  | none
  | parentExecuting
  | parentFinalizing
  | executing
  | failing
  deriving DecidableEq, Repr

/-- Modelled from the spec: the persisted dynamic node state: phase plus a
human reason string set on failure and finalization transitions. -/
structure DynamicNodeState where
  phase : DynamicNodePhase
  reason : String
  deriving DecidableEq, Repr

/-- Modelled from the spec: the phase carried by a task handler transition
(task handler contract of section 6). -/
inductive TaskPhase
  | queued
  | running
  | success
  | retryableFailure
  | failed
  deriving DecidableEq, Repr

/-- Modelled from the spec: a task handler transition: a phase plus optional
execution info. -/
structure Transition where
  phase : TaskPhase
  info : Option String
  deriving DecidableEq, Repr

/-- Modelled from the spec: the target of a dynamic sub-node: an inline task
reference or a launch-plan reference (the sub-workflow arm is not exercised
by any claim). -/
inductive SubNodeTarget
  | taskRef (id : Identifier)
  | launchPlanRef (id : Identifier)
  deriving DecidableEq, Repr

/-- Modelled from the spec: a sub-node of a dynamic job spec. -/
structure SubNode where
  id : String
  target : SubNodeTarget
  deriving DecidableEq, Repr

/-- Modelled from the spec: an output binding
`var_name -> (source_sub_node, source_var)`. -/
structure OutputBinding where
  var : String
  sourceNodeId : String
  sourceVar : String
  deriving DecidableEq, Repr

/-- Modelled from the spec: the dynamic job specification protobuf emitted
by the parent task (`futures.pb`). -/
structure DynamicJobSpec where
  minSuccesses : Int
  tasks : List TaskTemplate
  nodes : List SubNode
  outputs : List OutputBinding
  deriving DecidableEq, Repr

/-- Modelled from the spec: the result of attempting to read `futures.pb` at
the parent's output directory: absent (not dynamic), a decodable spec, or a
transient store error. -/
inductive FuturesRead
  | absent
  | spec (dj : DynamicJobSpec)
  | transientError (e : GoError)
  deriving DecidableEq, Repr

/-- Modelled from the spec: `Handle` while the persisted dynamic phase is
`None`.  The parent task handler runs first; on terminal success the handler
reads `futures.pb`: a decodable spec promotes the node to dynamic
(`ParentFinalizing`, report `Running`), absence passes the parent transition
through unchanged, a transient store error fails the whole handle.  All
non-success parent transitions are passed through with the phase staying
`None`. -/
def handleDynamicNodeNone (parentResult : Except GoError Transition)
    (futures : FuturesRead) : Except GoError (Transition × DynamicNodeState) :=
  match parentResult with
  | .error e => .error e
  | .ok trns =>
    match trns.phase with
    | .success =>
      match futures with
      | .absent => .ok (trns, { phase := .none, reason := "" })
      | .transientError e => .error e
      | .spec _ =>
        .ok ({ phase := .running, info := none }, { phase := .parentFinalizing, reason := "" })
    | _ => .ok (trns, { phase := .none, reason := "" })

/-- Reserved identifier of the synthetic start node. -/
def StartNodeID : String := "start-node"

/-- Reserved identifier of the synthetic end node. -/
def EndNodeID : String := "end-node"

/-- Modelled from the spec: deterministic sub-node naming
`<parent_node_id>-<attempt>-<child_id>`. -/
def subNodeID (parentNodeID : String) (attempt : Nat) (childID : String) : String :=
  parentNodeID ++ "-" ++ toString attempt ++ "-" ++ childID

/-- Modelled from the spec: a binding source id is rewritten with the
deterministic prefix, except that the reserved start-node and end-node
identifiers are kept. -/
def renameBindingSourceID (pfx id : String) : String :=
  if id = StartNodeID ∨ id = EndNodeID then id else pfx ++ "-" ++ id

/-- Modelled from the spec: the resolved closure of a launch plan, exposing
its expected inputs (parameters) and expected outputs. -/
structure LaunchPlanClosure where
  expectedInputs : List (String × Variable)
  expectedOutputs : VariableMap
  deriving DecidableEq, Repr

/-- Modelled from the spec: the launch-plan resolver contract
`get_launch_plan(ctx, id) -> closure | error`. -/
def LaunchPlanResolver := Identifier → Except GoError LaunchPlanClosure

/-- Modelled from the spec: the synthesized contextual sub-workflow: start
node (parent input interface), renamed user sub-nodes, end node whose input
interface is exactly the parent task's declared output interface, and the
end-node bindings with renamed sources. -/
structure ContextualWorkflow where
  startNodeOutputs : VariableMap
  subNodeIds : List String
  endNodeInputs : VariableMap
  endNodeBindings : List OutputBinding
  deriving DecidableEq, Repr

/-- The declared output variable map of a task template (empty when the
interface declares none). -/
def declaredOutputVars (task : TaskTemplate) : VariableMap :=
  match task.interface with
  | Option.none => { vars := [] }
  | some i =>
    match i.outputs with
    | Option.none => { vars := [] }
    | some vm => vm

/-- The declared input variable map of a task template (empty when the
interface declares none). -/
def declaredInputVars (task : TaskTemplate) : VariableMap :=
  match task.interface with
  | Option.none => { vars := [] }
  | some i =>
    match i.inputs with
    | Option.none => { vars := [] }
    | some vm => vm

/-- Modelled from the spec: the output interface a sub-node exposes: for a
task reference, the referenced task template's declared outputs; for a
launch-plan reference, the resolved closure's expected outputs. -/
def subNodeOutputVars (resolver : LaunchPlanResolver) (dj : DynamicJobSpec)
    (n : SubNode) : Except GoError VariableMap :=
  match n.target with
  | .taskRef tid =>
    match dj.tasks.find? (fun t => t.id = some tid) with
    | Option.none => .error { code := .unknown, msg := "unknown task reference " ++ tid.name }
    | some t => .ok (declaredOutputVars t)
  | .launchPlanRef lid =>
    match resolver lid with
    | .error e => .error e
    | .ok closure => .ok closure.expectedOutputs

/-- Modelled from the spec: the type check of one output binding: the
source variable (resolved against the source sub-node's output interface)
must exist and its literal type must equal the type of the target variable
in the parent task's declared output interface; any mismatch fails with a
descriptive reason. -/
def checkOutputBinding (resolver : LaunchPlanResolver) (dj : DynamicJobSpec)
    (parentOutputs : VariableMap) (b : OutputBinding) : Except GoError Unit :=
  match parentOutputs.vars.find? (fun p => p.1 = b.var) with
  | Option.none =>
    .error { code := .unknown
             msg := "binding target " ++ b.var ++ " is not a declared parent output" }
  | some target =>
    match dj.nodes.find? (fun n => n.id = b.sourceNodeId) with
    | Option.none =>
      .error { code := .unknown, msg := "unknown binding source node " ++ b.sourceNodeId }
    | some srcNode =>
      match subNodeOutputVars resolver dj srcNode with
      | .error e => .error e
      | .ok srcOutputs =>
        match srcOutputs.vars.find? (fun p => p.1 = b.sourceVar) with
        | Option.none =>
          .error { code := .unknown
                   msg := "the interface of the sub-node does not expose output "
                     ++ b.sourceVar ++ " expected by parent output " ++ b.var }
        | some source =>
          if source.2.type = target.2.type then
            .ok ()
          else
            .error { code := .unknown
                     msg := "type mismatch between sub-node output " ++ b.sourceVar
                       ++ " and parent output " ++ b.var }

/-- Modelled from the spec: step 5 of the builder: every output binding must
pass the type check; the first mismatch fails the whole build. -/
def typeCheckOutputBindings (resolver : LaunchPlanResolver) (dj : DynamicJobSpec)
    (parentOutputs : VariableMap) : List OutputBinding → Except GoError Unit
  | [] => .ok ()
  | b :: rest =>
    match checkOutputBinding resolver dj parentOutputs b with
    | .error e => .error e
    | .ok _ => typeCheckOutputBindings resolver dj parentOutputs rest

/-- Modelled from the spec: the contextual sub-workflow builder (section
4.2): resolve launch plans, rename every sub-node id with the deterministic
prefix `<parent_node_id>-<attempt>`, synthesize a start node passing the
parent inputs through and an end node whose input interface is exactly the
parent task's declared output interface, construct end-node bindings from
the spec outputs with renamed sources, and type-check every binding.  A
mismatch fails with a descriptive reason and no workflow is returned. -/
def buildContextualSubWorkflow (resolver : LaunchPlanResolver)
    (parentTask : TaskTemplate) (parentNodeID : String) (attempt : Nat)
    (dj : DynamicJobSpec) : Except GoError ContextualWorkflow :=
  let pfx := parentNodeID ++ "-" ++ toString attempt
  let parentOutputs := declaredOutputVars parentTask
  match typeCheckOutputBindings resolver dj parentOutputs dj.outputs with
  | .error e => .error e
  | .ok _ =>
    .ok { startNodeOutputs := declaredInputVars parentTask
          subNodeIds := dj.nodes.map (fun n => pfx ++ "-" ++ n.id)
          endNodeInputs := parentOutputs
          endNodeBindings := dj.outputs.map (fun b =>
            { b with sourceNodeId := renameBindingSourceID pfx b.sourceNodeId }) }

/-- Modelled from the spec: the aggregate status the recursive executor
reports for the sub-workflow. -/
inductive ExecStatus
  | queued
  | running
  | success
  | complete
  | failed (e : GoError)
  deriving DecidableEq, Repr

/-- Modelled from the spec: the state of the end-node outputs blob
(`<end_node_output_dir>/outputs.pb`) when the handler reads it. -/
inductive OutputsRead
  | present (lm : LiteralMap)
  | missing
  | unreadable (e : GoError)
  deriving DecidableEq, Repr

/-- Modelled from the spec: an execution error reported by the task
handler's validate-and-cache hook (`io.ExecutionError` with its
`IsRecoverable` flag). -/
structure ExecutionError where
  isRecoverable : Bool
  msg : String
  deriving DecidableEq, Repr

/-- Modelled from the spec: the observable outcome of one `Handle` tick in
phase `Executing`: the reported transition, the newly persisted dynamic
state, whether the recursive executor was invoked at all, and the outputs
promoted to the parent (if any). -/
structure ExecutingOutcome where
  transition : Transition
  state : DynamicNodeState
  executedSubWorkflow : Bool
  promotedOutputs : Option LiteralMap
  deriving DecidableEq, Repr

/-- Modelled from the spec: `Handle` while the persisted dynamic phase is
`Executing` (state machine rows of section 4.1 plus the output stitcher and
validate-and-cache hook of section 4.3).  The contextual workflow is built
first; a build failure transitions to `Failing` with the reason and the
sub-workflow is never executed.  Otherwise the recursive executor drives the
sub-graph: queued and running report `Running`; on completion the end-node
outputs blob is read: when it is present the validate-and-cache hook runs
over the promoted outputs (`validationErr` is its result, `none` when the
hook is not invoked — task not discoverable — or reports no error): no
validation error promotes the outputs and reports `Success`, a recoverable
validation error yields `RetryableFailure` and a non-recoverable one yields
`Failed`, both with phase `Failing`; a missing or unreadable blob
transitions to `Failing` with `RetryableFailure`; a failed sub-graph
transitions to `Failing` and reports `Running` so the next tick enters
finalization. -/
def handleDynamicNodeExecuting (buildRes : Except GoError ContextualWorkflow)
    (execStatus : ExecStatus) (endOutputs : OutputsRead)
    (validationErr : Option ExecutionError) : ExecutingOutcome :=
  match buildRes with
  | .error e =>
    { transition := { phase := .running, info := none }
      state := { phase := .failing, reason := e.msg }
      executedSubWorkflow := false
      promotedOutputs := none }
  | .ok _ =>
    match execStatus with
    | .queued | .running =>
      { transition := { phase := .running, info := none }
        state := { phase := .executing, reason := "" }
        executedSubWorkflow := true
        promotedOutputs := none }
    | .success | .complete =>
      match endOutputs with
      | .present lm =>
        match validationErr with
        | Option.none =>
          { transition := { phase := .success, info := none }
            state := { phase := .executing, reason := "" }
            executedSubWorkflow := true
            promotedOutputs := some lm }
        | some ve =>
          if ve.isRecoverable then
            { transition := { phase := .retryableFailure, info := some ve.msg }
              state := { phase := .failing, reason := ve.msg }
              executedSubWorkflow := true
              promotedOutputs := none }
          else
            { transition := { phase := .failed, info := some ve.msg }
              state := { phase := .failing, reason := ve.msg }
              executedSubWorkflow := true
              promotedOutputs := none }
      | .missing =>
        { transition := { phase := .retryableFailure
                          info := some "dynamic sub-workflow produced no outputs" }
          state := { phase := .failing, reason := "dynamic sub-workflow produced no outputs" }
          executedSubWorkflow := true
          promotedOutputs := none }
      | .unreadable e =>
        { transition := { phase := .retryableFailure, info := some e.msg }
          state := { phase := .failing, reason := e.msg }
          executedSubWorkflow := true
          promotedOutputs := none }
    | .failed e =>
      { transition := { phase := .running, info := none }
        state := { phase := .failing, reason := e.msg }
        executedSubWorkflow := true
        promotedOutputs := none }

/-- One of the two finalization paths of the dynamic node handler. -/
inductive FinalizeCall
  | parentTaskHandler
  | subNodesExecutor
  deriving DecidableEq, Repr

/-- Modelled from the spec: errors from the two finalize paths are joined,
not short-circuited. -/
def joinErrors : Option GoError → Option GoError → Option GoError
  | Option.none, Option.none => Option.none
  | some e, Option.none => some e
  | Option.none, some f => some f
  | some e, some f => some { code := e.code, msg := e.msg ++ "; " ++ f.msg }

/-- Modelled from the spec: `Finalize`.  In phase `None` (and
`ParentExecuting`, where no sub-node was ever launched) it forwards to the
parent task handler's finalize only; in `Executing`, `Failing` and
`ParentFinalizing` it finalizes both the parent task handler and every
sub-node via the recursive executor.  Both paths are attempted regardless of
errors; the errors are joined and reported. -/
def dynamicFinalize (state : DynamicNodeState)
    (parentFinalizeRes : Option GoError) (childFinalizeRes : Option GoError) :
    List FinalizeCall × Option GoError :=
  match state.phase with
  | .executing | .failing | .parentFinalizing =>
    ([FinalizeCall.parentTaskHandler, FinalizeCall.subNodesExecutor],
      joinErrors parentFinalizeRes childFinalizeRes)
  | _ => ([FinalizeCall.parentTaskHandler], parentFinalizeRes)

/-! ## Concrete instances used by witnesses and counterexamples -/

/-- A pod with a single ordinary container and no init containers. -/
def podEx : Pod :=
  { spec := { volumes := [], initContainers := [],
              containers := [{ name := "main", volumeMounts := [], env := [] }] } }

/-- A well-formed FILE-mounted secret. -/
def secretFileEx : Secret :=
  { group := "g", key := "k", version := "", mountRequirement := .file }

/-- The pod that `Inject` actually produces for `secretFileEx` on `podEx`:
volume added, mount added, default-dir and file-prefix environment variables
added, but none of the three secret-specific environment variables. -/
def podAfterInjectEx : Pod :=
  { spec :=
      { volumes := [{ name := "g", secretGroup := "g", secretKey := "k" }]
        initContainers := []
        containers :=
          [{ name := "main"
             volumeMounts := [{ name := "g", mountPath := "/etc/flyte/secrets/g", readOnly := true }]
             env := [{ name := K8sPathDefaultDirEnvVar, value := K8sSecretPathDefaultDir },
                     { name := K8sPathFilePrefixEnvVar, value := "" }] }] } }

/-- A FILE secret with an empty group, which `Inject` must reject. -/
def secretNoGroup : Secret :=
  { group := "", key := "k", version := "", mountRequirement := .file }

/-- A valid task template that declares neither inputs nor outputs. -/
def taskNoIO : TaskTemplate :=
  { id := some { resourceType := "TASK", project := "p", domain := "d", name := "t", version := "v" }
    type := "container"
    metadata := some { discoverable := true }
    interface := some { inputs := none, outputs := none } }

/-- The task execution identifier used by the catalog witnesses. -/
def execIDEx : TaskExecutionIdentifier :=
  { taskId := { resourceType := "TASK", project := "p", domain := "d", name := "t", version := "v" }
    nodeExecutionId := { nodeId := "n1" } }

/-- The dataset id `Put` derives for `taskNoIO`. -/
def dsIDEx : DatasetID := { project := "p", domain := "d", name := "t", version := "v" }

/-- The metadata `Put` attaches for `taskNoIO` under `execIDEx`. -/
def metadataEx : CatalogMetadata :=
  { keyMap := [(taskVersionKey, "v"), (taskExecKey, "n1")] }

/-- A blob store with no readable blobs. -/
def storeEmpty : ProtobufStore :=
  { readResp := fun _ => .error { code := .unknown, msg := "no blob at path" } }

/-- A catalog service where dataset and artifact creation succeed but the
`AddTag` RPC reports `ALREADY_EXISTS`. -/
def svcTagExists : DataCatalogService :=
  { getDatasetResp := fun _ => .error { code := .notFound, msg := "dataset not found" }
    getArtifactResp := fun _ _ => .error { code := .notFound, msg := "artifact not found" }
    createDatasetResp := fun _ => .ok ()
    createArtifactResp := fun _ => .ok ()
    addTagResp := fun _ => .error { code := .alreadyExists, msg := "tag exists" } }

/-- The catalog client whose `AddTag` call reports `ALREADY_EXISTS`. -/
def clientTagExists : CatalogClient := { client := svcTagExists, store := storeEmpty }

/-- A catalog service where every lookup reports `NOT_FOUND`. -/
def svcMiss : DataCatalogService :=
  { getDatasetResp := fun _ => .error { code := .notFound, msg := "dataset not found" }
    getArtifactResp := fun _ _ => .error { code := .notFound, msg := "artifact not found" }
    createDatasetResp := fun _ => .ok ()
    createArtifactResp := fun _ => .ok ()
    addTagResp := fun _ => .ok () }

/-- The catalog client whose dataset lookup reports `NOT_FOUND`. -/
def clientMiss : CatalogClient := { client := svcMiss, store := storeEmpty }

/-- A catalog service where every write succeeds. -/
def svcAllOk : DataCatalogService :=
  { getDatasetResp := fun _ => .error { code := .notFound, msg := "dataset not found" }
    getArtifactResp := fun _ _ => .error { code := .notFound, msg := "artifact not found" }
    createDatasetResp := fun _ => .ok ()
    createArtifactResp := fun _ => .ok ()
    addTagResp := fun _ => .ok () }

/-- The catalog client for the successful `Put` witness. -/
def clientAllOk : CatalogClient := { client := svcAllOk, store := storeEmpty }

/-- The integer literal type. -/
def intType : LiteralType := { simple := .integer }

/-- The string literal type. -/
def strType : LiteralType := { simple := .str }

/-- The variable map declaring a single integer output `x`. -/
def varMapX : VariableMap := { vars := [("x", { type := intType })] }

/-- The parent task of the dynamic-node examples: declared outputs
`(x : Integer)`. -/
def parentTaskEx : TaskTemplate :=
  { id := some { resourceType := "TASK", project := "p", domain := "d", name := "parent", version := "v" }
    type := "test"
    metadata := some { discoverable := true }
    interface := some { inputs := none, outputs := some varMapX } }

/-- The identifier of the inline sub-task of the dynamic job spec example. -/
def task1ID : Identifier :=
  { resourceType := "TASK", project := "", domain := "", name := "task_1", version := "" }

/-- The inline sub-task template of the dynamic job spec example: one
integer output `x`. -/
def task1Ex : TaskTemplate :=
  { id := some task1ID
    type := "container"
    metadata := none
    interface := some { inputs := none, outputs := some varMapX } }

/-- A dynamic job spec with inline-task sub-nodes and one output binding
`x <- Node_1.x`. -/
def djEx : DynamicJobSpec :=
  { minSuccesses := 2
    tasks := [task1Ex]
    nodes := [{ id := "Node_1", target := .taskRef task1ID },
              { id := "Node_2", target := .taskRef task1ID }]
    outputs := [{ var := "x", sourceNodeId := "Node_1", sourceVar := "x" }] }

/-- A resolver with no launch plans; the inline-task examples never call it. -/
def noResolver : LaunchPlanResolver :=
  fun _ => .error { code := .notFound, msg := "unknown launch plan" }

/-- The launch-plan identifier of the mismatch example. -/
def lpIDEx : Identifier :=
  { resourceType := "LAUNCH_PLAN", project := "p", domain := "d", name := "my_plan", version := "" }

/-- The resolved closure of the mismatch example: expected outputs
`(d : String)`, which does not expose the parent's `x : Integer`. -/
def lpClosureMismatch : LaunchPlanClosure :=
  { expectedInputs := [], expectedOutputs := { vars := [("d", { type := strType })] } }

/-- The resolver of the mismatch example. -/
def resolverMismatch : LaunchPlanResolver :=
  fun i => if i = lpIDEx then .ok lpClosureMismatch
           else .error { code := .notFound, msg := "unknown launch plan" }

/-- A dynamic job spec whose only sub-node is a launch-plan reference and
whose output binding expects `x` from it. -/
def djLPEx : DynamicJobSpec :=
  { minSuccesses := 1
    tasks := []
    nodes := [{ id := "Node_1", target := .launchPlanRef lpIDEx }]
    outputs := [{ var := "x", sourceNodeId := "Node_1", sourceVar := "x" }] }

/-- A concrete finalize error for the C7 witness. -/
def errEx : GoError := { code := .unknown, msg := "finalize failed" }

/-- The contextual workflow the builder produces for `djEx` under parent
node `n1`, attempt `1`. -/
def wfEx : ContextualWorkflow :=
  { startNodeOutputs := { vars := [] }
    subNodeIds := ["n1-1-Node_1", "n1-1-Node_2"]
    endNodeInputs := varMapX
    endNodeBindings := [{ var := "x", sourceNodeId := "n1-1-Node_1", sourceVar := "x" }] }

/-! ## Theorems -/

/-- Claim C3 (divergence witnessed): for the valid FILE secret `(g, k)` on a
single-container pod, `Inject` succeeds and adds the volume, the mount and
the default-directory and file-prefix environment variables, but no
container receives any of the three secret-specific environment variables
(ARN, mount path, file name): the source constructs that list and never
attaches it to a container. -/
theorem c3_inject_drops_secret_env_vars :
    Inject secretFileEx podEx =
      { newP := some podAfterInjectEx, injected := true, err := none } ∧
    (podAfterInjectEx.spec.containers.all fun c =>
      c.env.all fun ev =>
        ev.name != AWSSecretArnEnvVar && ev.name != AWSSecretMountPathEnvVar &&
          ev.name != AWSSecretFileNameEnvVar) = true := by
  decide

/-- Claim C4: for every secret that is invalid (its group or key is empty,
or its mount requirement is ENV_VAR or otherwise unrecognized), `Inject`
returns an error, reports nothing injected, and the original pod is
unchanged: the result pod is either absent or exactly the input pod. -/
theorem c4_inject_invalid_secret_rejected (secret : Secret) (p : Pod)
    (h : secret.group = "" ∨ secret.key = "" ∨
         secret.mountRequirement = MountRequirement.envVar ∨
         (∃ n, secret.mountRequirement = MountRequirement.unrecognized n)) :
    (Inject secret p).err.isSome = true ∧ (Inject secret p).injected = false ∧
      ((Inject secret p).newP = none ∨ (Inject secret p).newP = some p) := by
  by_cases hc : secret.group.length = 0 ∨ secret.key.length = 0
  · simp [Inject, hc]
  · have hg : secret.group ≠ "" := by
      intro hg
      exact hc (Or.inl (by rw [hg]; rfl))
    have hk : secret.key ≠ "" := by
      intro hk
      exact hc (Or.inr (by rw [hk]; rfl))
    rcases h with h1 | h2 | h3 | ⟨n, h4⟩
    · exact absurd h1 hg
    · exact absurd h2 hk
    · simp [Inject, hc, h3]
    · simp [Inject, hc, h4]

/-- Witness for C4: the FILE secret with an empty group is rejected and the
pod is returned unchanged (here: absent). -/
theorem c4_inject_invalid_secret_rejected_witness :
    (Inject secretNoGroup podEx).err.isSome = true ∧
    (Inject secretNoGroup podEx).injected = false ∧
      ((Inject secretNoGroup podEx).newP = none ∨
        (Inject secretNoGroup podEx).newP = some podEx) :=
  c4_inject_invalid_secret_rejected secretNoGroup podEx (Or.inl rfl)

/-- Claim C1 (divergence witnessed): running `Put` for a valid task against
a service whose `AddTag` RPC reports `ALREADY_EXISTS`, the dataset and the
artifact are created and the tag is attempted, and `Put` then returns the
`ALREADY_EXISTS` error to the caller instead of treating it as idempotent
success. -/
theorem c1_put_returns_already_exists_error :
    clientTagExists.Put taskNoIO execIDEx "inputs" "outputs" "artifact-1" =
      ([Event.rpcCreateDataset { id := dsIDEx, metadata := metadataEx },
        Event.rpcCreateArtifact
          { id := "artifact-1", dataset := dsIDEx, data := [], metadata := metadataEx },
        Event.rpcAddTag
          { name := "flyte_cached-" ++ serializeLiteralMap [], dataset := dsIDEx,
            artifactId := "artifact-1" }],
       .error { code := .alreadyExists, msg := "tag exists" }) := by
  rfl

/-- Claim C2 counterexample: with the dataset lookup reporting `NOT_FOUND`,
`Get` returns that error; it does not return an error-free absent result. -/
theorem c2_get_miss_counterexample :
    (clientMiss.Get taskNoIO "inputs").2 =
      .error { code := .notFound, msg := "dataset not found" } ∧
    ((clientMiss.Get taskNoIO "inputs").2.isOk = false) :=
  ⟨rfl, rfl⟩

/-- Claim C2 (amended): `Get` propagates a failed dataset lookup or a failed
artifact-by-tag lookup to its caller unchanged: when (after successful
validation and input reading) either lookup fails, `Get` returns exactly
that error, in particular preserving a `NOT_FOUND` code, which the caller
maps to a cache miss. -/
theorem c2_get_propagates_lookup_errors (m : CatalogClient) (task : TaskTemplate)
    (inputPath : String) (inputs : LiteralMap) (e : GoError)
    (hv : validateTask task = none)
    (hread : (if taskHasDeclaredInputs task then m.store.readResp inputPath
              else Except.ok []) = .ok inputs) :
    ((m.getDataset task).2 = .error e → (m.Get task inputPath).2 = .error e) ∧
    (∀ ds tag, (m.getDataset task).2 = .ok ds →
      GenerateArtifactTagName inputs = .ok tag →
      (m.getArtifactByTag tag ds).2 = .error e →
      (m.Get task inputPath).2 = .error e) := by
  rcases hGd : m.getDataset task with ⟨tds, rds⟩
  constructor
  · intro hds
    simp only [hGd] at hds
    subst hds
    by_cases hin : taskHasDeclaredInputs task
    · rw [if_pos hin] at hread
      simp [CatalogClient.Get, hv, hin, hread, hGd]
    · rw [if_neg hin] at hread
      simp [CatalogClient.Get, hv, hin, hGd]
  · intro ds tag hds htag hart
    simp only [hGd] at hds
    subst hds
    rcases hGa : m.getArtifactByTag tag ds with ⟨tar, rar⟩
    simp only [hGa] at hart
    subst hart
    by_cases hin : taskHasDeclaredInputs task
    · rw [if_pos hin] at hread
      simp [CatalogClient.Get, hv, hin, hread, hGd, htag, hGa]
    · rw [if_neg hin] at hread
      have : inputs = [] := by
        cases hread
        rfl
      subst this
      simp [CatalogClient.Get, hv, hin, hGd, htag, hGa]

/-- Witness for the amended C2 at the concrete client whose dataset lookup
reports `NOT_FOUND`. -/
theorem c2_get_propagates_lookup_errors_witness :
    (clientMiss.Get taskNoIO "inputs").2 =
      .error { code := .notFound, msg := "dataset not found" } :=
  (c2_get_propagates_lookup_errors clientMiss taskNoIO "inputs" []
    { code := .notFound, msg := "dataset not found" } rfl rfl).1 rfl

/-- Claim C10: for every valid task declaring no outputs (nil or empty
output variable map), with all catalog writes succeeding (dataset creation
possibly reporting `ALREADY_EXISTS`) and the input read succeeding when
inputs are declared, `Put` succeeds; its trace shows that the only store
read (if any) is of the input path — the output path is never read — that
the created artifact's data list is empty, and that the artifact is tagged
with the hash of the inputs. -/
theorem c10_put_no_declared_outputs (m : CatalogClient) (task : TaskTemplate)
    (execID : TaskExecutionIdentifier) (inputPath outputPath freshID : String)
    (inputs : LiteralMap) (dsID : DatasetID)
    (hv : validateTask task = none)
    (hout : taskHasDeclaredOutputs task = false)
    (hread : (if taskHasDeclaredInputs task then m.store.readResp inputPath
              else Except.ok []) = .ok inputs)
    (hid : GenerateDatasetIDForTask task = .ok dsID)
    (hds : ∀ d, m.client.createDatasetResp d = .ok () ∨
           ∃ e, m.client.createDatasetResp d = .error e ∧ e.code = .alreadyExists)
    (hart : ∀ a, m.client.createArtifactResp a = .ok ())
    (htag : ∀ t, m.client.addTagResp t = .ok ()) :
    m.Put task execID inputPath outputPath freshID =
      ((if taskHasDeclaredInputs task then [Event.readProto inputPath] else []) ++
        [Event.rpcCreateDataset { id := dsID, metadata := putCatalogMetadata task execID },
         Event.rpcCreateArtifact
           { id := freshID, dataset := dsID, data := [],
             metadata := putCatalogMetadata task execID },
         Event.rpcAddTag
           { name := "flyte_cached-" ++ serializeLiteralMap inputs, dataset := dsID,
             artifactId := freshID }],
       .ok ()) := by
  by_cases hin : taskHasDeclaredInputs task
  · rw [if_pos hin] at hread
    rcases hds { id := dsID, metadata := putCatalogMetadata task execID } with hok | ⟨e, he, hcode⟩
    · simp [CatalogClient.Put, hv, hin, hread, hout, hid, hok, hart, htag,
        GenerateArtifactTagName]
    · simp [CatalogClient.Put, hv, hin, hread, hout, hid, he, hcode, hart, htag,
        GenerateArtifactTagName]
  · rw [if_neg hin] at hread
    have hinputs : inputs = [] := by
      cases hread
      rfl
    subst hinputs
    rcases hds { id := dsID, metadata := putCatalogMetadata task execID } with hok | ⟨e, he, hcode⟩
    · simp [CatalogClient.Put, hv, hin, hout, hid, hok, hart, htag, GenerateArtifactTagName]
    · simp [CatalogClient.Put, hv, hin, hout, hid, he, hcode, hart, htag,
        GenerateArtifactTagName]

/-- Witness for C10 at a valid no-input no-output task and an all-accepting
catalog service. -/
theorem c10_put_no_declared_outputs_witness :
    clientAllOk.Put taskNoIO execIDEx "inputs" "outputs" "artifact-1" =
      ((if taskHasDeclaredInputs taskNoIO then [Event.readProto "inputs"] else []) ++
        [Event.rpcCreateDataset
           { id := dsIDEx, metadata := putCatalogMetadata taskNoIO execIDEx },
         Event.rpcCreateArtifact
           { id := "artifact-1", dataset := dsIDEx, data := [],
             metadata := putCatalogMetadata taskNoIO execIDEx },
         Event.rpcAddTag
           { name := "flyte_cached-" ++ serializeLiteralMap [], dataset := dsIDEx,
             artifactId := "artifact-1" }],
       .ok ()) :=
  c10_put_no_declared_outputs clientAllOk taskNoIO execIDEx "inputs" "outputs" "artifact-1"
    [] dsIDEx rfl rfl rfl rfl (fun _ => Or.inl rfl) (fun _ => rfl) (fun _ => rfl)

/-- Claim C5: `Handle` with dynamic phase `None`: a terminal-success parent
transition with a decodable `futures.pb` persists phase `ParentFinalizing`
and reports `Running`; terminal success without `futures.pb` passes the
parent transition through unchanged with phase `None`; every non-success
parent transition is passed through unchanged with phase `None`. -/
theorem c5_handle_phase_none (trns : Transition) (dj : DynamicJobSpec) (fut : FuturesRead) :
    (trns.phase = .success →
      handleDynamicNodeNone (.ok trns) (.spec dj) =
        .ok ({ phase := .running, info := none },
             { phase := .parentFinalizing, reason := "" }) ∧
      handleDynamicNodeNone (.ok trns) .absent =
        .ok (trns, { phase := .none, reason := "" })) ∧
    (trns.phase ≠ .success →
      handleDynamicNodeNone (.ok trns) fut =
        .ok (trns, { phase := .none, reason := "" })) := by
  obtain ⟨ph, info⟩ := trns
  constructor
  · intro h
    cases h
    exact ⟨rfl, rfl⟩
  · intro h
    cases ph
    case success => exact absurd rfl h
    all_goals rfl

/-- Witness for C5: a success parent transition with a spec promotes to
`ParentFinalizing`; a running parent transition passes through. -/
theorem c5_handle_phase_none_witness :
    handleDynamicNodeNone (.ok { phase := .success, info := none }) (.spec djEx) =
      .ok ({ phase := .running, info := none },
           { phase := .parentFinalizing, reason := "" }) ∧
    handleDynamicNodeNone (.ok { phase := .running, info := none }) .absent =
      .ok ({ phase := .running, info := none }, { phase := .none, reason := "" }) :=
  ⟨((c5_handle_phase_none { phase := .success, info := none } djEx .absent).1 rfl).1,
   (c5_handle_phase_none { phase := .running, info := none } djEx .absent).2 (by decide)⟩

/-- Claim C7: `Finalize` in phase `Executing`, `Failing` or
`ParentFinalizing` attempts both the parent task handler's finalize and the
recursive executor's finalize regardless of their results, and reports no
error exactly when both paths report none. -/
theorem c7_finalize_both_paths (st : DynamicNodeState) (pr cr : Option GoError)
    (h : st.phase = .executing ∨ st.phase = .failing ∨ st.phase = .parentFinalizing) :
    (dynamicFinalize st pr cr).1 =
      [FinalizeCall.parentTaskHandler, FinalizeCall.subNodesExecutor] ∧
    ((dynamicFinalize st pr cr).2 = none ↔ pr = none ∧ cr = none) := by
  obtain ⟨ph, rs⟩ := st
  have hred : dynamicFinalize ⟨ph, rs⟩ pr cr =
      ([FinalizeCall.parentTaskHandler, FinalizeCall.subNodesExecutor],
        joinErrors pr cr) := by
    rcases h with h | h | h <;> cases h <;> rfl
  rw [hred]
  refine ⟨rfl, ?_⟩
  cases pr <;> cases cr <;> simp [joinErrors]

/-- Witness for C7 in phase `Executing` with a failing parent finalize. -/
theorem c7_finalize_both_paths_witness :
    (dynamicFinalize { phase := .executing, reason := "" } (some errEx) none).1 =
      [FinalizeCall.parentTaskHandler, FinalizeCall.subNodesExecutor] ∧
    ((dynamicFinalize { phase := .executing, reason := "" } (some errEx) none).2 = none ↔
      some errEx = none ∧ (none : Option GoError) = none) :=
  c7_finalize_both_paths { phase := .executing, reason := "" } (some errEx) none (Or.inl rfl)

/-- Claim C8 counterexample: with the end-node outputs blob present but the
validate-and-cache hook reporting a recoverable error, the handler reports
`RetryableFailure` with phase `Failing`, not `Success`: presence of the
outputs blob alone does not imply Success. -/
theorem c8_present_outputs_validation_error_counterexample :
    handleDynamicNodeExecuting (.ok wfEx) .complete (.present [])
        (some { isRecoverable := true, msg := "cache validation failed" }) =
      { transition := { phase := .retryableFailure, info := some "cache validation failed" }
        state := { phase := .failing, reason := "cache validation failed" }
        executedSubWorkflow := true
        promotedOutputs := none } ∧
    (handleDynamicNodeExecuting (.ok wfEx) .complete (.present [])
        (some { isRecoverable := true, msg := "cache validation failed" })
      ).transition.phase ≠ TaskPhase.success :=
  ⟨rfl, by decide⟩

/-- Claim C8 (amended): `Handle` in phase `Executing` when the recursive
execution reports completion: a present end-node outputs blob with no
validation error from the validate-and-cache hook is promoted and `Success`
is reported with the dynamic phase staying `Executing`; outputs present
with a validation error transition to `Failing` and report
`RetryableFailure` when the error is recoverable and `Failed` otherwise; a
missing or unreadable blob transitions to `Failing` and reports
`RetryableFailure`. -/
theorem c8_executing_completion (wf : ContextualWorkflow) (lm : LiteralMap)
    (e : GoError) (ve : ExecutionError) (vr : Option ExecutionError) :
    handleDynamicNodeExecuting (.ok wf) .complete (.present lm) none =
      { transition := { phase := .success, info := none }
        state := { phase := .executing, reason := "" }
        executedSubWorkflow := true
        promotedOutputs := some lm } ∧
    handleDynamicNodeExecuting (.ok wf) .complete (.present lm) (some ve) =
      (if ve.isRecoverable then
        { transition := { phase := .retryableFailure, info := some ve.msg }
          state := { phase := .failing, reason := ve.msg }
          executedSubWorkflow := true
          promotedOutputs := none }
      else
        { transition := { phase := .failed, info := some ve.msg }
          state := { phase := .failing, reason := ve.msg }
          executedSubWorkflow := true
          promotedOutputs := none }) ∧
    handleDynamicNodeExecuting (.ok wf) .complete .missing vr =
      { transition := { phase := .retryableFailure
                        info := some "dynamic sub-workflow produced no outputs" }
        state := { phase := .failing, reason := "dynamic sub-workflow produced no outputs" }
        executedSubWorkflow := true
        promotedOutputs := none } ∧
    handleDynamicNodeExecuting (.ok wf) .complete (.unreadable e) vr =
      { transition := { phase := .retryableFailure, info := some e.msg }
        state := { phase := .failing, reason := e.msg }
        executedSubWorkflow := true
        promotedOutputs := none } := by
  refine ⟨rfl, ?_, rfl, rfl⟩
  rcases ve with ⟨r, m⟩
  cases r <;> rfl

/-- Claim C9: every successful build names its sub-nodes deterministically:
the synthesized ids are exactly `<parent_node_id>-<attempt>-<child_id>`, and
the reserved start-node and end-node identifiers are kept by the binding
rename. -/
theorem c9_deterministic_subnode_ids (resolver : LaunchPlanResolver)
    (parentTask : TaskTemplate) (parentNodeID : String) (attempt : Nat)
    (dj : DynamicJobSpec) (wf : ContextualWorkflow)
    (h : buildContextualSubWorkflow resolver parentTask parentNodeID attempt dj = .ok wf) :
    wf.subNodeIds = dj.nodes.map (fun n => subNodeID parentNodeID attempt n.id) ∧
    renameBindingSourceID (parentNodeID ++ "-" ++ toString attempt) StartNodeID =
      StartNodeID ∧
    renameBindingSourceID (parentNodeID ++ "-" ++ toString attempt) EndNodeID =
      EndNodeID := by
  unfold buildContextualSubWorkflow at h
  dsimp only at h
  rcases htc : typeCheckOutputBindings resolver dj (declaredOutputVars parentTask)
      dj.outputs with e | u
  · rw [htc] at h
    cases h
  · rw [htc] at h
    cases h
    refine ⟨rfl, ?_, ?_⟩
    · rw [renameBindingSourceID, if_pos (Or.inl rfl)]
    · rw [renameBindingSourceID, if_pos (Or.inr rfl)]

/-- Witness for C9 at the concrete dynamic job spec `djEx` under parent
node `n1`, attempt `1`. -/
theorem c9_deterministic_subnode_ids_witness :
    wfEx.subNodeIds = djEx.nodes.map (fun n => subNodeID "n1" 1 n.id) ∧
    renameBindingSourceID ("n1" ++ "-" ++ toString 1) StartNodeID = StartNodeID ∧
    renameBindingSourceID ("n1" ++ "-" ++ toString 1) EndNodeID = EndNodeID :=
  c9_deterministic_subnode_ids noResolver parentTaskEx "n1" 1 djEx wfEx rfl

/-- A string is nonempty when its length is positive. -/
theorem ne_empty_of_length_pos (s : String) (h : 0 < s.length) : s ≠ "" := by
  intro he
  subst he
  exact absurd h (by decide)

/-- Appending to the right keeps a string length positive. -/
theorem length_append_pos_left (a b : String) (ha : 0 < a.length) :
    0 < (a ++ b).length := by
  rw [String.length_append]
  omega

/-- Error messages of `subNodeOutputVars` are descriptive (nonempty), given
a resolver whose own error messages are nonempty. -/
theorem subNodeOutputVars_error_msg_ne (resolver : LaunchPlanResolver)
    (dj : DynamicJobSpec) (n : SubNode) (e : GoError)
    (hresmsg : ∀ lid f, resolver lid = .error f → f.msg ≠ "")
    (h : subNodeOutputVars resolver dj n = .error e) : e.msg ≠ "" := by
  unfold subNodeOutputVars at h
  rcases hn : n.target with tid | lid <;> rw [hn] at h <;> dsimp only at h
  · rcases h1 : dj.tasks.find? (fun t => t.id = some tid) with _ | t <;>
      rw [h1] at h <;> dsimp only at h
    · cases h
      apply ne_empty_of_length_pos
      apply length_append_pos_left
      decide
    · exact Except.noConfusion h
  · rcases h2 : resolver lid with f | closure <;> rw [h2] at h <;> dsimp only at h
    · cases h
      exact hresmsg lid _ h2
    · exact Except.noConfusion h

/-- Error messages of `checkOutputBinding` are descriptive (nonempty), given
a resolver whose own error messages are nonempty. -/
theorem checkOutputBinding_error_msg_ne (resolver : LaunchPlanResolver)
    (dj : DynamicJobSpec) (parentOutputs : VariableMap) (b : OutputBinding) (e : GoError)
    (hresmsg : ∀ lid f, resolver lid = .error f → f.msg ≠ "")
    (h : checkOutputBinding resolver dj parentOutputs b = .error e) : e.msg ≠ "" := by
  unfold checkOutputBinding at h
  rcases h1 : parentOutputs.vars.find? (fun p => p.1 = b.var) with _ | target <;>
    rw [h1] at h <;> dsimp only at h
  · cases h
    apply ne_empty_of_length_pos
    apply length_append_pos_left
    apply length_append_pos_left
    decide
  · rcases h2 : dj.nodes.find? (fun n => n.id = b.sourceNodeId) with _ | srcNode <;>
      rw [h2] at h <;> dsimp only at h
    · cases h
      apply ne_empty_of_length_pos
      apply length_append_pos_left
      decide
    · rcases h3 : subNodeOutputVars resolver dj srcNode with f | srcOutputs <;>
        rw [h3] at h <;> dsimp only at h
      · cases h
        exact subNodeOutputVars_error_msg_ne resolver dj srcNode e hresmsg h3
      · rcases h4 : srcOutputs.vars.find? (fun p => p.1 = b.sourceVar) with _ | source <;>
          rw [h4] at h <;> dsimp only at h
        · cases h
          apply ne_empty_of_length_pos
          apply length_append_pos_left
          apply length_append_pos_left
          apply length_append_pos_left
          decide
        · by_cases h5 : source.2.type = target.2.type
          · rw [if_pos h5] at h
            exact Except.noConfusion h
          · rw [if_neg h5] at h
            cases h
            apply ne_empty_of_length_pos
            apply length_append_pos_left
            apply length_append_pos_left
            apply length_append_pos_left
            decide

/-- A type-check error over a binding list has a descriptive (nonempty)
message, given a resolver whose own error messages are nonempty. -/
theorem typeCheckOutputBindings_error_msg_ne (resolver : LaunchPlanResolver)
    (dj : DynamicJobSpec) (parentOutputs : VariableMap) (l : List OutputBinding)
    (e : GoError)
    (hresmsg : ∀ lid f, resolver lid = .error f → f.msg ≠ "")
    (h : typeCheckOutputBindings resolver dj parentOutputs l = .error e) :
    e.msg ≠ "" := by
  induction l with
  | nil => exact Except.noConfusion h
  | cons b rest ih =>
    unfold typeCheckOutputBindings at h
    rcases hc : checkOutputBinding resolver dj parentOutputs b with f | u <;>
      rw [hc] at h <;> dsimp only at h
    · cases h
      exact checkOutputBinding_error_msg_ne resolver dj parentOutputs b e hresmsg hc
    · exact ih h

/-- If some member binding fails its check, the whole type check fails. -/
theorem typeCheckOutputBindings_mem_error (resolver : LaunchPlanResolver)
    (dj : DynamicJobSpec) (parentOutputs : VariableMap) (b : OutputBinding)
    (l : List OutputBinding) (f : GoError)
    (hb : b ∈ l) (hbe : checkOutputBinding resolver dj parentOutputs b = .error f) :
    ∃ e, typeCheckOutputBindings resolver dj parentOutputs l = .error e := by
  induction l with
  | nil => cases hb
  | cons hd rest ih =>
    unfold typeCheckOutputBindings
    rcases hc : checkOutputBinding resolver dj parentOutputs hd with g | u
    · exact ⟨g, rfl⟩
    · rcases List.mem_cons.mp hb with hbd | hbr
      · subst hbd
        rw [hbe] at hc
        exact Except.noConfusion hc
      · rcases ih hbr with ⟨e, he⟩
        exact ⟨e, he⟩

/-- Claim C6: for every dynamic job spec containing a launch-plan sub-node
whose resolved output interface does not provide, under the same name and
literal type, the output a binding expects for a parent-declared output, the
contextual sub-workflow builder fails with a descriptive (nonempty) reason,
returns no workflow, and the sub-workflow is never executed. -/
theorem c6_launch_plan_interface_mismatch (resolver : LaunchPlanResolver)
    (parentTask : TaskTemplate) (parentNodeID : String) (attempt : Nat)
    (dj : DynamicJobSpec) (b : OutputBinding) (srcNode : SubNode) (lid : Identifier)
    (closure : LaunchPlanClosure)
    (hb : b ∈ dj.outputs)
    (hfind : dj.nodes.find? (fun n => n.id = b.sourceNodeId) = some srcNode)
    (hlp : srcNode.target = .launchPlanRef lid)
    (hres : resolver lid = .ok closure)
    (hresmsg : ∀ lid2 f, resolver lid2 = .error f → f.msg ≠ "")
    (hmis : ∀ tv, (declaredOutputVars parentTask).vars.find? (fun q => q.1 = b.var) =
              some tv →
            ∀ sv, closure.expectedOutputs.vars.find? (fun q => q.1 = b.sourceVar) =
              some sv →
            sv.2.type ≠ tv.2.type) :
    (∃ e, buildContextualSubWorkflow resolver parentTask parentNodeID attempt dj =
        .error e ∧ e.msg ≠ "") ∧
    (∀ es eo vr, (handleDynamicNodeExecuting
        (buildContextualSubWorkflow resolver parentTask parentNodeID attempt dj) es eo vr
      ).executedSubWorkflow = false) := by
  have hcheck : ∃ f, checkOutputBinding resolver dj (declaredOutputVars parentTask) b =
      .error f := by
    unfold checkOutputBinding
    rcases h1 : (declaredOutputVars parentTask).vars.find? (fun p => p.1 = b.var)
        with _ | target
    · rw [h1]
      exact ⟨_, rfl⟩
    · rw [h1, hfind]
      dsimp only
      unfold subNodeOutputVars
      rw [hlp]
      dsimp only
      rw [hres]
      dsimp only
      rcases h4 : closure.expectedOutputs.vars.find? (fun p => p.1 = b.sourceVar)
          with _ | source
      · rw [h4]
        exact ⟨_, rfl⟩
      · rw [h4]
        dsimp only
        rw [if_neg (hmis target h1 source h4)]
        exact ⟨_, rfl⟩
  obtain ⟨f, hf⟩ := hcheck
  obtain ⟨e, he⟩ := typeCheckOutputBindings_mem_error resolver dj
    (declaredOutputVars parentTask) b dj.outputs f hb hf
  have hbuild : buildContextualSubWorkflow resolver parentTask parentNodeID attempt dj =
      .error e := by
    unfold buildContextualSubWorkflow
    dsimp only
    rw [he]
  refine ⟨⟨e, hbuild, ?_⟩, ?_⟩
  · exact typeCheckOutputBindings_error_msg_ne resolver dj (declaredOutputVars parentTask)
      dj.outputs e hresmsg he
  · intro es eo vr
    rw [hbuild]
    rfl

/-- Witness for C6 at the S6 instance: the launch plan resolves to outputs
`(d : String)` while the parent declares `(x : Integer)`. -/
theorem c6_launch_plan_interface_mismatch_witness :
    (∃ e, buildContextualSubWorkflow resolverMismatch parentTaskEx "n1" 1 djLPEx =
        .error e ∧ e.msg ≠ "") ∧
    (handleDynamicNodeExecuting
        (buildContextualSubWorkflow resolverMismatch parentTaskEx "n1" 1 djLPEx)
        .queued .missing none).executedSubWorkflow = false :=
  let h := c6_launch_plan_interface_mismatch resolverMismatch parentTaskEx "n1" 1 djLPEx
    { var := "x", sourceNodeId := "Node_1", sourceVar := "x" }
    { id := "Node_1", target := .launchPlanRef lpIDEx } lpIDEx lpClosureMismatch
    (by decide)
    rfl
    rfl
    (by rfl)
    (by
      intro lid2 f hf
      unfold resolverMismatch at hf
      split at hf
      · exact Except.noConfusion hf
      · cases hf
        decide)
    (by
      intro tv htv sv hsv
      cases hsv)
  ⟨h.1, h.2 .queued .missing none⟩

end FlytePropeller
